import Mathlib

/-!
Verification of the inter-agent messaging and resilience layer of the
Decentralized-AgentMesh-with-A2A repository.

The definitions below are a shallow embedding of the Python source:
* `src/lib/utils/communication.py` — circuit breaker (`CircuitBreaker`),
  messaging (`GlobalA2AClient.send_message`), handshake coordination
  (`send_request_with_handshake`, `_poll_handshake_result`), broadcast
  (`broadcast` / `failover_call`), delegation-ledger queries
  (`check_delegation_exists`).
* `src/lib/utils/retry.py` — cross-process token-bucket rate limiter
  (`FileLockRateLimiter.acquire`).
* `src/lib/tools/delegation_tool.py` — incident-id extraction
  (`extract_incident_id`) and the delegation tool with dedup and failover
  (`delegate_to_agent`, `failover_agents`).

Wall-clock time (`time.time()`) is modelled by explicit `Rat` parameters;
the polling loop of the handshake coordinator advances in whole poll
intervals (1 s), so its clock is a `Nat`.  Stateful methods are modelled as
pure functions that return the mutated state.  I/O (database rows, the
shared state file, HTTP delivery) is modelled by explicit data passed in
and out; delivery outcomes are abstracted by a per-attempt success
predicate, mirroring the `try/except` structure of the source.
-/

namespace AgentMesh

/-! ## Circuit breaker — `communication.py` lines 41–111

`CIRCUIT_FAILURE_THRESHOLD = 3`, `CIRCUIT_RESET_TIMEOUT = 60.0`,
`CIRCUIT_HALF_OPEN_MAX = 1`.  A destination's entry in
`CircuitBreaker._circuits` is the tuple
`(state, failure_count, last_failure_time, half_open_attempts)`; a
destination absent from the dict is modelled as `none` (cold start). -/

def CIRCUIT_FAILURE_THRESHOLD : Nat := 3

def CIRCUIT_RESET_TIMEOUT : Rat := 60

def CIRCUIT_HALF_OPEN_MAX : Nat := 1

inductive CircuitState
  | closed
  | opened
  | halfOpen
deriving DecidableEq, Repr

structure CircuitEntry where
  state : CircuitState
  failures : Nat
  lastFailure : Rat
  halfOpenAttempts : Nat
deriving DecidableEq, Repr

/-- One destination's slot in `CircuitBreaker._circuits`
(`none` = key absent). -/
abbrev Circuit := Option CircuitEntry

/-- `CircuitBreaker.get_state` (mutates: OPEN → HALF_OPEN once
`reset_timeout` has strictly elapsed since the last failure). -/
def getState (c : Circuit) (now : Rat) : CircuitState × Circuit :=
  match c with
  | none => (.closed, none)
  | some e =>
    if e.state = .opened ∧ now - e.lastFailure > CIRCUIT_RESET_TIMEOUT then
      (.halfOpen, some ⟨.halfOpen, e.failures, e.lastFailure, 0⟩)
    else (e.state, some e)

/-- `CircuitBreaker.record_success`: unconditionally resets the entry to
`(CLOSED, 0, 0.0, 0)`. -/
def recordSuccessC : Circuit := some ⟨.closed, 0, 0, 0⟩

/-- `CircuitBreaker.record_failure` at wall-clock time `now`. -/
def recordFailure (c : Circuit) (now : Rat) : Circuit :=
  match c with
  | none => some ⟨.closed, 1, now, 0⟩
  | some e =>
    let nf := e.failures + 1
    if e.state = .halfOpen then some ⟨.opened, nf, now, 0⟩
    else if nf ≥ CIRCUIT_FAILURE_THRESHOLD then some ⟨.opened, nf, now, 0⟩
    else some ⟨.closed, nf, now, 0⟩

/-- `CircuitBreaker.allow_request` (mutates: counts a HALF_OPEN probe). -/
def allowRequest (c : Circuit) (now : Rat) : Bool × Circuit :=
  let g := getState c now
  match g.1 with
  | .closed => (true, g.2)
  | .opened => (false, g.2)
  | .halfOpen =>
    match g.2 with
    | some e =>
      if e.halfOpenAttempts < CIRCUIT_HALF_OPEN_MAX then
        (true, some { e with halfOpenAttempts := e.halfOpenAttempts + 1 })
      else (false, g.2)
    | none => (false, g.2)

/-- Three consecutive `record_failure` calls from the cold state. -/
def threeFailures (t1 t2 t3 : Rat) : Circuit :=
  recordFailure (recordFailure (recordFailure none t1) t2) t3

theorem threeFailures_eq (t1 t2 t3 : Rat) :
    threeFailures t1 t2 t3 = some ⟨.opened, 3, t3, 0⟩ := rfl

/-- C2 — Circuit breaker lifecycle: from the cold (CLOSED) state, `allow`
still returns true after one and after two consecutive failures; after the
third failure it returns false for as long as at most `reset_timeout`
(60 s) has elapsed since the last failure; once strictly more than 60 s
have elapsed it returns true exactly `half_open_max` (1) time and false
thereafter (leaving the state unchanged, so all later calls also return
false); a failure recorded while HALF_OPEN reopens the circuit; and
`record_success` resets the entry to CLOSED with all counters zeroed. -/
theorem circuit_breaker_lifecycle (t1 t2 t3 s1 s2 s3 u v w : Rat)
    (hin : s3 - t3 ≤ CIRCUIT_RESET_TIMEOUT)
    (hout : u - t3 > CIRCUIT_RESET_TIMEOUT) :
    (allowRequest (recordFailure none t1) s1).1 = true ∧
    (allowRequest (recordFailure (recordFailure none t1) t2) s2).1 = true ∧
    (allowRequest (threeFailures t1 t2 t3) s3).1 = false ∧
    (allowRequest (threeFailures t1 t2 t3) u).1 = true ∧
    (allowRequest (allowRequest (threeFailures t1 t2 t3) u).2 v).1 = false ∧
    (allowRequest (allowRequest (threeFailures t1 t2 t3) u).2 v).2 =
      (allowRequest (threeFailures t1 t2 t3) u).2 ∧
    recordFailure (allowRequest (threeFailures t1 t2 t3) u).2 w =
      some ⟨.opened, 4, w, 0⟩ ∧
    recordSuccessC = some ⟨.closed, 0, 0, 0⟩ := by
  have h3 : threeFailures t1 t2 t3 = some ⟨.opened, 3, t3, 0⟩ := rfl
  have hnot : ¬ (s3 - t3 > CIRCUIT_RESET_TIMEOUT) := not_lt.mpr hin
  have hopen : allowRequest (threeFailures t1 t2 t3) s3 =
      (false, some ⟨.opened, 3, t3, 0⟩) := by
    rw [h3]
    simp only [allowRequest, getState]
    rw [if_neg (fun h => hnot h.2)]
  have hhalf : allowRequest (threeFailures t1 t2 t3) u =
      (true, some ⟨.halfOpen, 3, t3, 1⟩) := by
    rw [h3]
    simp only [allowRequest, getState]
    rw [if_pos ⟨trivial, hout⟩]
    rfl
  refine ⟨rfl, rfl, ?_, ?_, ?_, ?_, ?_, rfl⟩
  · rw [hopen]
  · rw [hhalf]
  · rw [hhalf]; rfl
  · rw [hhalf]; rfl
  · rw [hhalf]; rfl

/-- Witness for C2 at concrete times: three failures at times 0, 1, 2;
probe observed at 3 (still blocked) and at 100 (half-open probe allowed). -/
theorem circuit_breaker_lifecycle_witness :
    ((3 : Rat) - 2 ≤ CIRCUIT_RESET_TIMEOUT ∧
      (100 : Rat) - 2 > CIRCUIT_RESET_TIMEOUT) ∧
    ((allowRequest (recordFailure none 0) 10).1 = true ∧
      (allowRequest (recordFailure (recordFailure none 0) 1) 10).1 = true ∧
      (allowRequest (threeFailures 0 1 2) 3).1 = false ∧
      (allowRequest (threeFailures 0 1 2) 100).1 = true ∧
      (allowRequest (allowRequest (threeFailures 0 1 2) 100).2 101).1 = false ∧
      (allowRequest (allowRequest (threeFailures 0 1 2) 100).2 101).2 =
        (allowRequest (threeFailures 0 1 2) 100).2 ∧
      recordFailure (allowRequest (threeFailures 0 1 2) 100).2 102 =
        some ⟨.opened, 4, 102, 0⟩ ∧
      recordSuccessC = some ⟨.closed, 0, 0, 0⟩) :=
  ⟨by constructor <;> norm_num [CIRCUIT_RESET_TIMEOUT],
    circuit_breaker_lifecycle 0 1 2 10 10 3 100 101 102
      (by norm_num [CIRCUIT_RESET_TIMEOUT]) (by norm_num [CIRCUIT_RESET_TIMEOUT])⟩

/-! ## Cross-process token bucket — `retry.py` lines 74–140

`FileLockRateLimiter.acquire` (one pass of its loop body, executed under
the file lock): read `{tokens, last_update}`, refill
`min(max_tokens, tokens + elapsed * rate)`, consume one token if the
refilled count is at least 1, otherwise persist the partial refill and
compute the wait `(1 - new_tokens) / rate` to sleep outside the lock. -/

structure AcquireStep where
  acquired : Bool
  tokens : Rat
  waitTime : Rat

/-- `new_tokens = min(self.max_tokens, tokens + elapsed * self.rate)`. -/
def refillTokens (maxTokens tokens elapsed rate : Rat) : Rat :=
  min maxTokens (tokens + elapsed * rate)

/-- One locked pass of `FileLockRateLimiter.acquire`. -/
def acquireStep (maxTokens rate tokens elapsed : Rat) : AcquireStep :=
  let newTokens := refillTokens maxTokens tokens elapsed rate
  if newTokens ≥ 1 then ⟨true, newTokens - 1, 0⟩
  else ⟨false, newTokens, (1 - newTokens) / rate⟩

/-- The persisted token count after a sequence of `acquire()` passes with
the given elapsed times. -/
def runAcquires (maxTokens rate tokens : Rat) (els : List Rat) : Rat :=
  els.foldl (fun t e => (acquireStep maxTokens rate t e).tokens) tokens

theorem acquireStep_tokens_bounds (maxTokens rate tokens elapsed : Rat)
    (h0 : 0 ≤ tokens) (h1 : tokens ≤ maxTokens) (he : 0 ≤ elapsed)
    (hr : 0 ≤ rate) :
    0 ≤ (acquireStep maxTokens rate tokens elapsed).tokens ∧
      (acquireStep maxTokens rate tokens elapsed).tokens ≤ maxTokens := by
  have hx0 : 0 ≤ refillTokens maxTokens tokens elapsed rate :=
    le_min (h0.trans h1) (add_nonneg h0 (mul_nonneg he hr))
  have hx1 : refillTokens maxTokens tokens elapsed rate ≤ maxTokens :=
    min_le_left _ _
  by_cases hge : refillTokens maxTokens tokens elapsed rate ≥ 1
  · simp only [acquireStep, if_pos hge]
    constructor <;> linarith
  · simp only [acquireStep, if_neg hge]
    exact ⟨hx0, hx1⟩

theorem runAcquires_bounds (maxTokens rate : Rat) (hr : 0 ≤ rate) :
    ∀ (els : List Rat) (tokens : Rat), 0 ≤ tokens → tokens ≤ maxTokens →
      (∀ e ∈ els, 0 ≤ e) →
      0 ≤ runAcquires maxTokens rate tokens els ∧
        runAcquires maxTokens rate tokens els ≤ maxTokens := by
  intro els
  induction els with
  | nil => intro tokens h0 h1 _; exact ⟨h0, h1⟩
  | cons e rest ih =>
    intro tokens h0 h1 hels
    have he : 0 ≤ e := hels e (List.mem_cons_self _ _)
    have hb := acquireStep_tokens_bounds maxTokens rate tokens e h0 h1 he hr
    have := ih (acquireStep maxTokens rate tokens e).tokens hb.1 hb.2
      (fun x hx => hels x (List.mem_cons_of_mem _ hx))
    simpa [runAcquires] using this

/-- C5 — Rate bucket invariant: starting from `0 ≤ tokens ≤ capacity` with
non-negative elapsed time and refill rate, a single locked pass of
`acquire()` keeps the persisted count in `[0, capacity]`; a successful
acquisition happens only when the refilled count is ≥ 1 and decreases it by
exactly 1; an unsuccessful pass persists exactly the partial refill; and
over any sequence of passes the persisted count stays in `[0, capacity]`. -/
theorem rate_bucket_invariant (maxTokens rate tokens elapsed : Rat)
    (els : List Rat) (h0 : 0 ≤ tokens) (h1 : tokens ≤ maxTokens)
    (he : 0 ≤ elapsed) (hr : 0 ≤ rate) (hels : ∀ e ∈ els, 0 ≤ e) :
    (0 ≤ (acquireStep maxTokens rate tokens elapsed).tokens ∧
      (acquireStep maxTokens rate tokens elapsed).tokens ≤ maxTokens) ∧
    ((acquireStep maxTokens rate tokens elapsed).acquired = true →
      1 ≤ refillTokens maxTokens tokens elapsed rate ∧
      (acquireStep maxTokens rate tokens elapsed).tokens =
        refillTokens maxTokens tokens elapsed rate - 1) ∧
    ((acquireStep maxTokens rate tokens elapsed).acquired = false →
      (acquireStep maxTokens rate tokens elapsed).tokens =
        refillTokens maxTokens tokens elapsed rate) ∧
    (0 ≤ runAcquires maxTokens rate tokens els ∧
      runAcquires maxTokens rate tokens els ≤ maxTokens) := by
  refine ⟨acquireStep_tokens_bounds maxTokens rate tokens elapsed h0 h1 he hr,
    ?_, ?_, runAcquires_bounds maxTokens rate hr els tokens h0 h1 hels⟩
  · intro ha
    by_cases hge : refillTokens maxTokens tokens elapsed rate ≥ 1
    · exact ⟨hge, by simp only [acquireStep, if_pos hge]⟩
    · simp only [acquireStep, if_neg hge] at ha
      exact absurd ha (by simp)
  · intro ha
    by_cases hge : refillTokens maxTokens tokens elapsed rate ≥ 1
    · simp only [acquireStep, if_pos hge] at ha
      exact absurd ha (by simp)
    · simp only [acquireStep, if_neg hge]

/-- Witness for C5: capacity 8, rate 8/60 tokens per second (the default
`requests_per_minute = 8`), a full bucket, zero elapsed time, and two
further zero-elapsed passes. -/
theorem rate_bucket_invariant_witness :
    ((0 : Rat) ≤ 8 ∧ (8 : Rat) ≤ 8 ∧ (0 : Rat) ≤ 0 ∧ (0 : Rat) ≤ 8 / 60 ∧
      (∀ e ∈ ([0, 0] : List Rat), 0 ≤ e)) ∧
    ((0 ≤ (acquireStep 8 (8 / 60) 8 0).tokens ∧
      (acquireStep 8 (8 / 60) 8 0).tokens ≤ 8) ∧
    ((acquireStep 8 (8 / 60) 8 0).acquired = true →
      1 ≤ refillTokens 8 8 0 (8 / 60) ∧
      (acquireStep 8 (8 / 60) 8 0).tokens = refillTokens 8 8 0 (8 / 60) - 1) ∧
    ((acquireStep 8 (8 / 60) 8 0).acquired = false →
      (acquireStep 8 (8 / 60) 8 0).tokens = refillTokens 8 8 0 (8 / 60)) ∧
    (0 ≤ runAcquires 8 (8 / 60) 8 [0, 0] ∧
      runAcquires 8 (8 / 60) 8 [0, 0] ≤ 8)) :=
  ⟨by refine ⟨by norm_num, by norm_num, le_refl _, by norm_num, ?_⟩
      intro e he
      simp at he
      simp [he],
    rate_bucket_invariant 8 (8 / 60) 8 0 [0, 0] (by norm_num) (by norm_num)
      (le_refl _) (by norm_num)
      (by intro e he; simp at he; simp [he])⟩

/-! ## Messaging client — `communication.py` `send_message` (lines 498–592)

The loop `for attempt in range(retries + 1)` is modelled by structural
recursion on the number of attempts left (`fuel = retries + 1 - attempt`);
the `fuel = 0` base case is unreachable from `sendMessage` because the
`attempt = retries` test always fires first.  A delivery attempt's outcome
(the `try` body succeeding or raising) is abstracted by
`profile : Nat → Bool`; client-cache/Consul invalidation on failure has no
further observable effect here and is not modelled.  `check_health` is the
default `False`.  `sleeps` records the backoff waits, `events` the circuit
breaker recordings, and `trace` the circuit state after each recording. -/

inductive BreakerEvent
  | success
  | failure
deriving DecidableEq, Repr

inductive SendResult
  | delivered
  | circuitOpen (agent : String)
deriving DecidableEq, Repr

structure SendRun where
  result : Except Unit SendResult
  attempts : Nat
  sleeps : List Nat
  events : List BreakerEvent
  trace : List Circuit
  circuit : Circuit

/-- `min(32, 2 ** attempt)` — the exponential backoff of `send_message`. -/
def backoff (attempt : Nat) : Nat := min 32 (2 ^ attempt)

def sendAux (profile : Nat → Bool) (retries : Nat) :
    Nat → Nat → Circuit → Rat → List Nat → List BreakerEvent →
      List Circuit → SendRun
  | 0, attempt, c, _, sleeps, events, trace =>
    ⟨.error (), attempt, sleeps, events, trace, c⟩
  | fuel + 1, attempt, c, now, sleeps, events, trace =>
    if profile attempt then
      ⟨.ok .delivered, attempt + 1, sleeps, events ++ [.success],
        trace ++ [recordSuccessC], recordSuccessC⟩
    else
      let c' := recordFailure c now
      if attempt = retries then
        ⟨.error (), attempt + 1, sleeps, events ++ [.failure],
          trace ++ [c'], c'⟩
      else
        sendAux profile retries fuel (attempt + 1) c'
          (now + (backoff attempt : Nat)) (sleeps ++ [backoff attempt])
          (events ++ [.failure]) (trace ++ [c'])

/-- `GlobalA2AClient.send_message`: circuit-breaker gate, then the retry
loop. -/
def sendMessage (profile : Nat → Bool) (retries : Nat) (c : Circuit)
    (now : Rat) (target : String) : SendRun :=
  let a := allowRequest c now
  if a.1 then sendAux profile retries (retries + 1) 0 a.2 now [] [] []
  else ⟨.ok (.circuitOpen target), 0, [], [], [], a.2⟩

/-- C4 counterexample: with `retries = 3` and a target unreachable on the
first three delivery attempts but reachable on a fourth,
`send_message` performs a FOURTH delivery attempt
(`for attempt in range(retries + 1)` makes `retries + 1` attempts) and
returns a delivered result — not "exactly 3 delivery attempts" with a
propagated transport failure as the claim states. -/
theorem send_retry_claim_counterexample :
    (sendMessage (fun k => k == 3) 3 none 0 "B").attempts = 4 ∧
    (sendMessage (fun k => k == 3) 3 none 0 "B").result = .ok .delivered :=
  ⟨rfl, rfl⟩

/-- C4 (amended) — Retry bound: a `send` with `retries = 3` to a target
unreachable on the first 3 delivery attempts and reachable on the 4th makes
exactly `retries + 1 = 4` delivery attempts, sleeps the backoffs 1, 2, 4
seconds, returns delivered, and its circuit breaker records 3 failures —
reaching threshold 3 and standing OPEN after the third — before the 4th
attempt's success resets it to CLOSED with zeroed counters; the transport
failure is propagated only when all 4 attempts fail. -/
theorem send_retry_bound (profile : Nat → Bool) (now : Rat) (target : String)
    (h0 : profile 0 = false) (h1 : profile 1 = false)
    (h2 : profile 2 = false) (h3 : profile 3 = true) :
    (sendMessage profile 3 none now target).result = .ok .delivered ∧
    (sendMessage profile 3 none now target).attempts = 4 ∧
    (sendMessage profile 3 none now target).sleeps = [1, 2, 4] ∧
    (sendMessage profile 3 none now target).events =
      [.failure, .failure, .failure, .success] ∧
    (∃ tf, (sendMessage profile 3 none now target).trace.get? 2 =
      some (some ⟨.opened, 3, tf, 0⟩)) ∧
    (sendMessage profile 3 none now target).circuit =
      some ⟨.closed, 0, 0, 0⟩ ∧
    (∀ q : Nat → Bool, q 0 = false → q 1 = false → q 2 = false →
      q 3 = false →
      (sendMessage q 3 none now target).result = .error () ∧
      (sendMessage q 3 none now target).attempts = 4) := by
  have key : sendMessage profile 3 none now target =
      sendAux profile 3 4 0 none now [] [] [] := rfl
  have step : sendAux profile 3 4 0 none now [] [] [] =
      ⟨.ok .delivered, 4, [1, 2, 4],
        [.failure, .failure, .failure, .success],
        [some ⟨.closed, 1, now, 0⟩,
          some ⟨.closed, 2, now + (1 : Nat), 0⟩,
          some ⟨.opened, 3, now + (1 : Nat) + (2 : Nat), 0⟩,
          recordSuccessC],
        recordSuccessC⟩ := by
    simp [sendAux, h0, h1, h2, h3, backoff, recordFailure, recordSuccessC,
      CIRCUIT_FAILURE_THRESHOLD]
  refine ⟨?_, ?_, ?_, ?_, ?_, ?_, ?_⟩
  · rw [key, step]
  · rw [key, step]
  · rw [key, step]
  · rw [key, step]
  · exact ⟨now + (1 : Nat) + (2 : Nat), by rw [key, step]; rfl⟩
  · rw [key, step]; rfl
  · intro q q0 q1 q2 q3
    have keyq : sendMessage q 3 none now target =
        sendAux q 3 4 0 none now [] [] [] := rfl
    have stepq : sendAux q 3 4 0 none now [] [] [] =
        ⟨.error (), 4, [1, 2, 4],
          [.failure, .failure, .failure, .failure],
          [some ⟨.closed, 1, now, 0⟩,
            some ⟨.closed, 2, now + (1 : Nat), 0⟩,
            some ⟨.opened, 3, now + (1 : Nat) + (2 : Nat), 0⟩,
            some ⟨.opened, 4, now + (1 : Nat) + (2 : Nat) + (4 : Nat), 0⟩],
          some ⟨.opened, 4, now + (1 : Nat) + (2 : Nat) + (4 : Nat), 0⟩⟩ := by
      simp [sendAux, q0, q1, q2, q3, backoff, recordFailure, recordSuccessC,
        CIRCUIT_FAILURE_THRESHOLD]
    rw [keyq, stepq]
    exact ⟨rfl, rfl⟩

/-- Witness for C4 (amended) at the concrete profile that succeeds exactly
on attempt index 3. -/
theorem send_retry_bound_witness :
    ((fun k => k == 3) 0 = false ∧ (fun k => k == 3) 1 = false ∧
      (fun k => k == 3) 2 = false ∧ (fun k => k == 3) 3 = true) ∧
    ((sendMessage (fun k => k == 3) 3 none 0 "B").result = .ok .delivered ∧
      (sendMessage (fun k => k == 3) 3 none 0 "B").attempts = 4 ∧
      (sendMessage (fun k => k == 3) 3 none 0 "B").sleeps = [1, 2, 4] ∧
      (sendMessage (fun k => k == 3) 3 none 0 "B").events =
        [.failure, .failure, .failure, .success] ∧
      (∃ tf, (sendMessage (fun k => k == 3) 3 none 0 "B").trace.get? 2 =
        some (some ⟨.opened, 3, tf, 0⟩)) ∧
      (sendMessage (fun k => k == 3) 3 none 0 "B").circuit =
        some ⟨.closed, 0, 0, 0⟩ ∧
      (∀ q : Nat → Bool, q 0 = false → q 1 = false → q 2 = false →
        q 3 = false →
        (sendMessage q 3 none 0 "B").result = .error () ∧
        (sendMessage q 3 none 0 "B").attempts = 4)) :=
  ⟨⟨rfl, rfl, rfl, rfl⟩,
    send_retry_bound (fun k => k == 3) 0 "B" rfl rfl rfl rfl⟩

/-! ## Handshake coordinator — `communication.py` lines 241–271 and 594–679

`send_request_with_handshake` (DB-backed path, `db_available = True`):
after the circuit-breaker gate it creates a PENDING `handshakes` row,
registers an in-process future, sends the `HANDSHAKE_REQUEST` (delivery is
assumed to succeed, which records one breaker success), then calls
`_poll_handshake_result`, which queries the row once per second
(`await asyncio.sleep(1)`) while `time.time() - start_time < timeout`.

The remote side's `resolve_handshake(cid, result)` is modelled by
`resolution : Option (Nat × Payload)`: `some (tr, p)` means the row is
COMPLETED with result `p` from poll-clock second `tr` on; `none` means no
resolution ever arrives.  `_poll_handshake_result` deletes the row both
when it observes COMPLETED and when it times out, so the durable record
never survives the call.  Note the caller tests the polled result with
`if result:` — Python truthiness — so an empty-object result is treated
like a timeout. -/

/-- A JSON-object handshake result (`Dict[str, Any]`), modelled as a list
of key/value pairs; `[]` is the empty (falsy) object `{}`. -/
abbrev Payload := List (String × String)

/-- The polling loop of `_poll_handshake_result`, structurally recursive on
the number of whole poll intervals left before `timeout`.  Returns the
polled result (if any) and the poll-clock time at which the loop exited. -/
def pollAux (resolution : Option (Nat × Payload)) :
    Nat → Nat → Option Payload × Nat
  | 0, t => (none, t)
  | fuel + 1, t =>
    match resolution with
    | some (tr, p) =>
      if tr ≤ t then (some p, t) else pollAux resolution fuel (t + 1)
    | none => pollAux resolution fuel (t + 1)

/-- `GlobalA2AClient._poll_handshake_result` (polls at seconds
`0, 1, …, timeout - 1`; exits at second `timeout` when unresolved). -/
def pollHandshakeResult (resolution : Option (Nat × Payload))
    (timeout : Nat) : Option Payload × Nat :=
  pollAux resolution timeout 0

/-- The message of the exception raised on handshake timeout. -/
def timeoutMsg (target : String) (timeout : Nat) : String :=
  "Agent " ++ target ++ " did not respond within " ++ toString timeout ++ "s"

structure HsRun where
  result : Except String Payload
  exitTime : Nat
  recordAfter : Bool
  waiterAfter : Bool
  events : List BreakerEvent
  circuit : Circuit

/-- `GlobalA2AClient.send_request_with_handshake` (DB-backed path, message
delivery succeeding).  `recordAfter` is whether the durable `handshakes`
row for the correlation id still exists afterwards, `waiterAfter` whether
the in-process future is still registered. -/
def sendRequestWithHandshake (c : Circuit) (now : Rat) (target : String)
    (resolution : Option (Nat × Payload)) (timeout : Nat) : HsRun :=
  let a := allowRequest c now
  if a.1 then
    let pr := pollHandshakeResult resolution timeout
    match pr.1 with
    | some p =>
      if p.isEmpty then
        ⟨.error (timeoutMsg target timeout), pr.2, false, false,
          [.success, .failure], recordFailure recordSuccessC (now + (pr.2 : Nat))⟩
      else
        ⟨.ok p, pr.2, false, false, [.success, .success], recordSuccessC⟩
    | none =>
      ⟨.error (timeoutMsg target timeout), pr.2, false, false,
        [.success, .failure], recordFailure recordSuccessC (now + (pr.2 : Nat))⟩
  else
    ⟨.error ("Circuit breaker OPEN for " ++ target), 0, false, false, [], a.2⟩

theorem pollAux_none (fuel : Nat) :
    ∀ t : Nat, pollAux none fuel t = (none, fuel + t) := by
  induction fuel with
  | zero => intro t; simp [pollAux]
  | succ f ih =>
    intro t
    rw [pollAux, ih (t + 1)]
    congr 1
    omega

theorem pollAux_found (tr : Nat) (p : Payload) :
    ∀ fuel t : Nat, t ≤ tr → tr - t < fuel →
      pollAux (some (tr, p)) fuel t = (some p, tr) := by
  intro fuel
  induction fuel with
  | zero => intro t _ hf; omega
  | succ f ih =>
    intro t ht hf
    by_cases htr : tr ≤ t
    · have : t = tr := le_antisymm ht htr
      subst this
      simp [pollAux]
    · rw [pollAux, if_neg htr]
      exact ih (t + 1) (by omega) (by omega)

/-- C3 counterexample: a handshake whose correlation id is resolved at poll
second 0 — well before the timeout of 5 — with the empty (falsy) result
object still raises the timeout error, because
`send_request_with_handshake` tests the polled result with `if result:`.
So the claim "returns exactly that result" fails at `result = {}`. -/
theorem handshake_empty_result_counterexample :
    (sendRequestWithHandshake none 0 "medical-agent" (some (0, [])) 5).result =
      .error (timeoutMsg "medical-agent" 5) := rfl

/-- C3 (amended) — Handshake request/response: a handshake request whose
correlation id receives a matching resolution with a NON-EMPTY (truthy)
result at poll second `tr < timeout` returns exactly that result (at time
`tr`); one that never receives a resolution raises the timeout error no
earlier than `timeout` and no later than `timeout + poll_interval` (its
exit time is exactly `timeout`).  An empty resolved result is misclassified
as a timeout (see the counterexample). -/
theorem handshake_request_response (c : Circuit) (now : Rat) (target : String)
    (tr timeout : Nat) (p : Payload)
    (hallow : (allowRequest c now).1 = true)
    (htr : tr < timeout) (hp : p ≠ []) :
    (sendRequestWithHandshake c now target (some (tr, p)) timeout).result =
      .ok p ∧
    (sendRequestWithHandshake c now target (some (tr, p)) timeout).exitTime =
      tr ∧
    (sendRequestWithHandshake c now target none timeout).result =
      .error (timeoutMsg target timeout) ∧
    timeout ≤ (sendRequestWithHandshake c now target none timeout).exitTime ∧
    (sendRequestWithHandshake c now target none timeout).exitTime ≤
      timeout + 1 := by
  have hpoll : pollHandshakeResult (some (tr, p)) timeout = (some p, tr) :=
    pollAux_found tr p timeout 0 (Nat.zero_le _) (by omega)
  have hpoll2 : pollHandshakeResult none timeout = (none, timeout) := by
    rw [pollHandshakeResult, pollAux_none]
    simp
  have hne : p.isEmpty = false := by
    cases p with
    | nil => exact absurd rfl hp
    | cons x xs => rfl
  refine ⟨?_, ?_, ?_, ?_, ?_⟩ <;>
    simp [sendRequestWithHandshake, hallow, hpoll, hpoll2, hne]

/-- Witness for C3 (amended): cold breaker, resolution at second 1 with a
one-entry result object, timeout 5. -/
theorem handshake_request_response_witness :
    ((allowRequest none 0).1 = true ∧ 1 < 5 ∧
      ([("status", "ok")] : Payload) ≠ []) ∧
    ((sendRequestWithHandshake none 0 "medical-agent"
        (some (1, [("status", "ok")])) 5).result = .ok [("status", "ok")] ∧
      (sendRequestWithHandshake none 0 "medical-agent"
        (some (1, [("status", "ok")])) 5).exitTime = 1 ∧
      (sendRequestWithHandshake none 0 "medical-agent" none 5).result =
        .error (timeoutMsg "medical-agent" 5) ∧
      5 ≤ (sendRequestWithHandshake none 0 "medical-agent" none 5).exitTime ∧
      (sendRequestWithHandshake none 0 "medical-agent" none 5).exitTime ≤
        5 + 1) :=
  ⟨⟨rfl, by decide, by decide⟩,
    handshake_request_response none 0 "medical-agent" 1 5 [("status", "ok")]
      rfl (by decide) (by decide)⟩

/-- C8 — Handshake cleanup on timeout: a handshake request that never
receives a resolution raises the timeout error exactly at the requested
timeout, records a circuit-breaker failure for the target (after the
success recorded by delivering the request itself), and afterwards the
durable handshake record is gone and the in-process waiter is removed. -/
theorem handshake_timeout_cleanup (c : Circuit) (now : Rat) (target : String)
    (timeout : Nat) (hallow : (allowRequest c now).1 = true) :
    (sendRequestWithHandshake c now target none timeout).result =
      .error (timeoutMsg target timeout) ∧
    (sendRequestWithHandshake c now target none timeout).exitTime = timeout ∧
    (sendRequestWithHandshake c now target none timeout).recordAfter =
      false ∧
    (sendRequestWithHandshake c now target none timeout).waiterAfter =
      false ∧
    (sendRequestWithHandshake c now target none timeout).events =
      [.success, .failure] := by
  have hpoll2 : pollHandshakeResult none timeout = (none, timeout) := by
    rw [pollHandshakeResult, pollAux_none]
    simp
  refine ⟨?_, ?_, ?_, ?_, ?_⟩ <;>
    simp [sendRequestWithHandshake, hallow, hpoll2]

/-- Witness for C8: cold breaker, no resolution, timeout 5. -/
theorem handshake_timeout_cleanup_witness :
    ((allowRequest none 0).1 = true) ∧
    ((sendRequestWithHandshake none 0 "fire-chief-agent" none 5).result =
        .error (timeoutMsg "fire-chief-agent" 5) ∧
      (sendRequestWithHandshake none 0 "fire-chief-agent" none 5).exitTime =
        5 ∧
      (sendRequestWithHandshake none 0 "fire-chief-agent" none 5).recordAfter =
        false ∧
      (sendRequestWithHandshake none 0 "fire-chief-agent" none 5).waiterAfter =
        false ∧
      (sendRequestWithHandshake none 0 "fire-chief-agent" none 5).events =
        [.success, .failure]) :=
  ⟨rfl, handshake_timeout_cleanup none 0 "fire-chief-agent" 5 rfl⟩

/-- C10 — Circuit-open interface divergence: when the target's circuit
breaker disallows the request, `send_message` RETURNS a structured result
with status `circuit_open` naming the target — no exception, zero delivery
attempts, no backoff sleeps, and no success/failure recorded on the
breaker — whereas `send_request_with_handshake` in the same condition
RAISES an exception (also without recording breaker events). -/
theorem circuit_open_interface (profile : Nat → Bool) (retries : Nat)
    (c : Circuit) (now : Rat) (target : String)
    (resolution : Option (Nat × Payload)) (timeout : Nat)
    (h : (allowRequest c now).1 = false) :
    (sendMessage profile retries c now target).result =
      .ok (.circuitOpen target) ∧
    (sendMessage profile retries c now target).attempts = 0 ∧
    (sendMessage profile retries c now target).sleeps = [] ∧
    (sendMessage profile retries c now target).events = [] ∧
    (sendRequestWithHandshake c now target resolution timeout).result =
      .error ("Circuit breaker OPEN for " ++ target) ∧
    (sendRequestWithHandshake c now target resolution timeout).events =
      [] := by
  refine ⟨?_, ?_, ?_, ?_, ?_, ?_⟩ <;>
    simp [sendMessage, sendRequestWithHandshake, h]

/-- Witness for C10: a HALF_OPEN circuit whose single probe is already
consumed disallows the request. -/
theorem circuit_open_interface_witness :
    ((allowRequest (some ⟨.halfOpen, 3, 0, 1⟩) 7).1 = false) ∧
    ((sendMessage (fun _ => true) 3 (some ⟨.halfOpen, 3, 0, 1⟩) 7
        "medical-agent").result = .ok (.circuitOpen "medical-agent") ∧
      (sendMessage (fun _ => true) 3 (some ⟨.halfOpen, 3, 0, 1⟩) 7
        "medical-agent").attempts = 0 ∧
      (sendMessage (fun _ => true) 3 (some ⟨.halfOpen, 3, 0, 1⟩) 7
        "medical-agent").sleeps = [] ∧
      (sendMessage (fun _ => true) 3 (some ⟨.halfOpen, 3, 0, 1⟩) 7
        "medical-agent").events = [] ∧
      (sendRequestWithHandshake (some ⟨.halfOpen, 3, 0, 1⟩) 7
        "medical-agent" none 5).result =
        .error ("Circuit breaker OPEN for " ++ "medical-agent") ∧
      (sendRequestWithHandshake (some ⟨.halfOpen, 3, 0, 1⟩) 7
        "medical-agent" none 5).events = []) :=
  ⟨rfl, circuit_open_interface (fun _ => true) 3 (some ⟨.halfOpen, 3, 0, 1⟩)
    7 "medical-agent" none 5 rfl⟩

/-! ## Broadcast — `communication.py` lines 681–692

`broadcast` fans out `failover_call` over the target list with
`asyncio.gather` and zips agents with results; `failover_call` performs one
`send_message(..., retries=1)` and catches every exception as
`{"status": "unreachable", "agent": agent}`. -/

inductive BResult
  | delivered
  | circuitOpen (agent : String)
  | unreachable (agent : String)
deriving DecidableEq, Repr

/-- `GlobalA2AClient.failover_call`. -/
def failoverCall (profile : Nat → Bool) (c : Circuit) (now : Rat)
    (agent : String) : BResult :=
  match (sendMessage profile 1 c now agent).result with
  | .ok .delivered => .delivered
  | .ok (.circuitOpen a) => .circuitOpen a
  | .error _ => .unreachable agent

/-- `GlobalA2AClient.broadcast`: the per-target outcome map
`{agent: result for agent, result in zip(agents, results)}`. -/
def broadcast (profiles : String → Nat → Bool) (circuits : String → Circuit)
    (now : Rat) (agents : List String) : List (String × BResult) :=
  agents.map (fun a => (a, failoverCall (profiles a) (circuits a) now a))

theorem broadcast_lookup (profiles : String → Nat → Bool)
    (circuits : String → Circuit) (now : Rat) :
    ∀ (agents : List String) (a : String), a ∈ agents →
      (broadcast profiles circuits now agents).lookup a =
        some (failoverCall (profiles a) (circuits a) now a) := by
  intro agents
  induction agents with
  | nil => intro a ha; cases ha
  | cons b l ih =>
    intro a ha
    by_cases hab : a = b
    · subst hab
      simp [broadcast, List.lookup]
    · have hm : a ∈ l := by
        rcases List.mem_cons.mp ha with h | h
        · exact absurd h hab
        · exact h
      have hb : (a == b) = false := beq_eq_false_iff_ne.mpr hab
      simpa [broadcast, List.lookup, hb] using ih a hm

/-- C9 — Broadcast isolation: the outcome map contains an entry for every
target, in order; a target whose `send` raises gets its own `unreachable`
marker and a target whose `send` delivers gets `delivered` — each outcome
depends only on that target's own circuit and delivery behavior, so no
single failure raises out of `broadcast` or blocks the others. -/
theorem broadcast_isolation (profiles : String → Nat → Bool)
    (circuits : String → Circuit) (now : Rat) (agents : List String) :
    (broadcast profiles circuits now agents).map Prod.fst = agents ∧
    ∀ a ∈ agents,
      ((sendMessage (profiles a) 1 (circuits a) now a).result = .error () →
        (broadcast profiles circuits now agents).lookup a =
          some (.unreachable a)) ∧
      ((sendMessage (profiles a) 1 (circuits a) now a).result =
          .ok .delivered →
        (broadcast profiles circuits now agents).lookup a =
          some .delivered) := by
  constructor
  · simp only [broadcast, List.map_map]
    exact List.map_id'' (fun _ => rfl) agents
  · intro a ha
    constructor
    · intro hf
      rw [broadcast_lookup profiles circuits now agents a ha]
      simp [failoverCall, hf]
    · intro hs
      rw [broadcast_lookup profiles circuits now agents a ha]
      simp [failoverCall, hs]

/-- Witness for C9: two targets; the fire chief is unreachable on both
attempts, the medical agent delivers. -/
theorem broadcast_isolation_witness :
    ("fire-chief-agent" ∈ (["fire-chief-agent", "medical-agent"] :
        List String) ∧
      "medical-agent" ∈ (["fire-chief-agent", "medical-agent"] :
        List String)) ∧
    ((broadcast (fun a _ => a == "medical-agent") (fun _ => none) 0
        ["fire-chief-agent", "medical-agent"]).map Prod.fst =
      ["fire-chief-agent", "medical-agent"] ∧
      (broadcast (fun a _ => a == "medical-agent") (fun _ => none) 0
        ["fire-chief-agent", "medical-agent"]).lookup "fire-chief-agent" =
        some (.unreachable "fire-chief-agent") ∧
      (broadcast (fun a _ => a == "medical-agent") (fun _ => none) 0
        ["fire-chief-agent", "medical-agent"]).lookup "medical-agent" =
        some .delivered) := by
  refine ⟨⟨by simp, by simp⟩,
    (broadcast_isolation (fun a _ => a == "medical-agent") (fun _ => none) 0
      ["fire-chief-agent", "medical-agent"]).1, ?_, ?_⟩
  · exact ((broadcast_isolation (fun a _ => a == "medical-agent")
      (fun _ => none) 0 ["fire-chief-agent", "medical-agent"]).2
      "fire-chief-agent" (by simp)).1 rfl
  · exact ((broadcast_isolation (fun a _ => a == "medical-agent")
      (fun _ => none) 0 ["fire-chief-agent", "medical-agent"]).2
      "medical-agent" (by simp)).2 rfl

/-! ## Incident-id extraction — `delegation_tool.py` lines 32–53

`extract_incident_id` applies two `re.search` patterns in order:
1. `[Ii]ncident\s*[Ii][Dd][:=]\s*([A-Z0-9_-]+)` — an explicit label; only
   whitespace may stand between `incident` and `id`.
2. `\b([A-Z][A-Z0-9]*(?:_[A-Z0-9]+){2,})\b` — an all-caps identifier whose
   head segment is followed by AT LEAST TWO further `_`-joined segments.

The character classes are the ASCII ones Python uses on these inputs.
Because every character the second pattern can consume is a word
character, and `_` is a word character, the trailing `\b` forces any match
to end exactly at the end of the maximal word-character run, and the
leading `\b` forces it to start at the start of such a run; the run must
therefore match the whole pattern, which is what `capsRunOk` checks.
`re.search` semantics — leftmost match wins — is the left-to-right scan of
`searchLabel` / `searchCaps`. -/

def isWs (c : Char) : Bool :=
  c == ' ' || c == '\t' || c == '\n' || c == '\r' || c == '\x0b' ||
    c == '\x0c'

def isUpperC (c : Char) : Bool := decide ('A' ≤ c) && decide (c ≤ 'Z')

def isLowerC (c : Char) : Bool := decide ('a' ≤ c) && decide (c ≤ 'z')

def isDigitC (c : Char) : Bool := decide ('0' ≤ c) && decide (c ≤ '9')

/-- The capture class of pattern 1: `[A-Z0-9_-]`. -/
def isIdCap (c : Char) : Bool :=
  isUpperC c || isDigitC c || c == '_' || c == '-'

/-- `\w` (ASCII): `[A-Za-z0-9_]`. -/
def isWordC (c : Char) : Bool :=
  isUpperC c || isLowerC c || isDigitC c || c == '_'

/-- `[A-Z0-9]` — a segment character of pattern 2. -/
def isSegC (c : Char) : Bool := isUpperC c || isDigitC c

/-- Attempt pattern 1 anchored at the head of `l`:
`[Ii]ncident\s*[Ii][Dd][:=]\s*([A-Z0-9_-]+)` (the greedy `\s*` and the
greedy capture are deterministic: whitespace is disjoint from `[IiDd]` and
from the capture class). -/
def matchLabelAt : List Char → Option (List Char)
  | [] => none
  | c :: rest =>
    if (c == 'I' || c == 'i') && rest.take 7 == "ncident".toList then
      match (rest.drop 7).dropWhile isWs with
      | i :: d :: r2 =>
        if (i == 'I' || i == 'i') && (d == 'D' || d == 'd') then
          match r2 with
          | sep :: r3 =>
            if sep == ':' || sep == '=' then
              if ((r3.dropWhile isWs).takeWhile isIdCap).isEmpty then none
              else some ((r3.dropWhile isWs).takeWhile isIdCap)
            else none
          | [] => none
        else none
      | _ => none
    else none

/-- `re.search` for pattern 1: leftmost anchored match. -/
def searchLabel : List Char → Option (List Char)
  | [] => none
  | c :: rest =>
    match matchLabelAt (c :: rest) with
    | some cap => some cap
    | none => searchLabel rest

/-- Split a character run on `_`. -/
def splitUnderscore : List Char → List (List Char)
  | [] => [[]]
  | c :: rest =>
    if c == '_' then [] :: splitUnderscore rest
    else
      match splitUnderscore rest with
      | s :: ss => (c :: s) :: ss
      | [] => [[c]]

/-- Whether a maximal word-character run matches the whole of pattern 2:
head uppercase, every character in `[A-Z0-9_]`, and at least three
non-empty `_`-separated segments (the head plus `{2,}` repetitions of
`_[A-Z0-9]+`). -/
def capsRunOk (run : List Char) : Bool :=
  match run with
  | [] => false
  | c :: _ =>
    isUpperC c && run.all (fun x => isSegC x || x == '_') &&
      (let segs := splitUnderscore run
       decide (3 ≤ segs.length) && segs.all (fun s => !s.isEmpty))

/-- `re.search` for pattern 2: scan positions left to right;
`atBoundary` records whether the previous character was a non-word
character (or the string start), i.e. whether `\b` holds here. -/
def searchCaps : List Char → Bool → Option (List Char)
  | [], _ => none
  | c :: rest, atBoundary =>
    if atBoundary && isUpperC c then
      if capsRunOk ((c :: rest).takeWhile isWordC) then
        some ((c :: rest).takeWhile isWordC)
      else searchCaps rest (!isWordC c)
    else searchCaps rest (!isWordC c)

/-- `delegation_tool.extract_incident_id`. -/
def extract_incident_id (text : String) : Option String :=
  if text = "" then none
  else
    match searchLabel text.toList with
    | some cap => some (String.mk cap)
    | none =>
      match searchCaps text.toList true with
      | some run => some (String.mk run)
      | none => none

/-- C7 — the label heuristic contradicts the function's own docstring: the
docstring lists `"incident_id: ABC_123"` as a recognized pattern, but the
regex `[Ii]ncident\s*[Ii][Dd][:=]` only allows WHITESPACE between
`incident` and `id`, so an underscore-joined `incident_id:` label never
matches (and `ABC9`, having no underscores, cannot be rescued by the
all-caps heuristic): extraction returns nothing.  The whitespace forms of
the same label are extracted fine, pinpointing the underscore as the
breakage.  The all-caps heuristic requires at least three
underscore-separated segments (`(?:_[A-Z0-9]+){2,}`), so a two-segment
identifier is also not extracted on its own. -/
theorem incident_label_underscore_bug :
    extract_incident_id "incident_id: ABC9" = none ∧
    extract_incident_id "Incident ID: ABC9" = some "ABC9" ∧
    extract_incident_id "incident id: ABC9" = some "ABC9" ∧
    extract_incident_id "incident_id: ABC_123" = none ∧
    extract_incident_id "for ABC_123_456" = some "ABC_123_456" := by
  refine ⟨?_, ?_, ?_, ?_, ?_⟩ <;> rfl

/-! ## Delegation ledger and tool — `delegation_tool.py` lines 56–310 and
`communication.py` lines 379–426

`check_delegation_exists` is the SQL
`SELECT ... WHERE incident_id = $1 AND target_agent = $2 AND created_at >
NOW() - INTERVAL '1 second' * $3 AND status IN ('PENDING', 'COMPLETED')
ORDER BY created_at DESC LIMIT 1` over the `delegation_logs` table,
modelled as a list of entries; the target name is normalized
(`_` → `-`) first, and an empty/missing incident id short-circuits to
no hit.

`delegate_to_agent` is the tool body: extract an incident id; if one is
found and `check_delegation_exists` hits, return an `already_handled`
result naming the original delegator without any transport call; otherwise
log PENDING and send the handshake.  On a handshake exception whose
message contains `503`/`connection`/`timeout` (case-insensitive) and whose
target has a static failover backup, the same payload is retried once
against the backup (annotated `is_failover`); a failed failover is
recorded FAILED with the original error and is never chained further.
Handshake behavior is abstracted by `hs : target → is_failover → outcome`;
`handshakeCalls` records the `(target, is_failover)` of each
`send_request_with_handshake` invocation. -/

inductive DStatus
  | pending
  | completed
  | timedOut
  | failed
  | failoverSuccess
deriving DecidableEq, Repr

structure DelegationEntry where
  source_agent : String
  target_agent : String
  incident_id : Option String
  created_at : Rat
  status : DStatus
deriving DecidableEq, Repr

/-- `GlobalA2AClient._normalize_name`: `name.replace("_", "-")`. -/
def normalizeName (s : String) : String :=
  String.mk (s.data.map (fun c => if c = '_' then '-' else c))

/-- The WHERE clause of `check_delegation_exists` for one row (the target
name is already normalized by the caller). -/
def matchesDedup (e : DelegationEntry) (iid tgt : String)
    (now maxAge : Rat) : Bool :=
  e.incident_id == some iid && e.target_agent == tgt &&
    decide (e.created_at > now - maxAge) &&
    (e.status == .pending || e.status == .completed)

/-- `ORDER BY created_at DESC LIMIT 1` over the matching rows. -/
def selectLatest : List DelegationEntry → Option DelegationEntry
  | [] => none
  | e :: rest =>
    match selectLatest rest with
    | none => some e
    | some b => if b.created_at > e.created_at then some b else some e

/-- `GlobalA2AClient.check_delegation_exists`. -/
def check_delegation_exists (ledger : List DelegationEntry)
    (iid tgt : String) (now maxAge : Rat) : Option DelegationEntry :=
  if iid = "" then none
  else
    selectLatest
      (ledger.filter (fun e => matchesDedup e iid (normalizeName tgt) now maxAge))

/-- The static failover mapping of `delegate_to_agent`. -/
def failover_agents : List (String × String) :=
  [("medical-agent", "police-chief-agent"),
   ("civic-alert-agent", "police-chief-agent"),
   ("fire-chief-agent", "police-chief-agent"),
   ("utility-agent", "fire-chief-agent"),
   ("police-chief-agent", "fire-chief-agent")]

/-- Python's substring test `needle in hay`. -/
def containsSub : List Char → List Char → Bool
  | needle, [] => needle.isEmpty
  | needle, c :: rest => needle.isPrefixOf (c :: rest) || containsSub needle rest

/-- `is_connection_failure`: `"503" in error_str or "connection" in
error_str.lower() or "timeout" in error_str.lower()`. -/
def isConnectionFailure (msg : String) : Bool :=
  containsSub "503".toList msg.toList ||
    containsSub "connection".toList (msg.toList.map Char.toLower) ||
    containsSub "timeout".toList (msg.toList.map Char.toLower)

/-- Outcome of one `send_request_with_handshake` call as seen by the tool:
a response payload, or an exception with its message.  (The handshake
coordinator converts its own `asyncio.TimeoutError` into a generic
`Exception("Agent ... did not respond within ...s")`, so every failure
reaches the tool as a generic exception.) -/
inductive HsBehavior
  | ok (resp : Payload)
  | err (msg : String)

inductive DelegateResult
  | alreadyHandled (target handledBy incident : String)
  | delegated (target : String) (resp : Payload)
  | failoverOk (originalTarget handledBy : String)
  | failed (target : String) (error : String)
deriving DecidableEq, Repr

structure DelegationOutcome where
  result : DelegateResult
  handshakeCalls : List (String × Bool)
deriving DecidableEq, Repr

/-- The send / failover part of `delegate_to_agent` (after the dedup
check). -/
def delegateProceed (target : String) (hs : String → Bool → HsBehavior) :
    DelegationOutcome :=
  match hs target false with
  | .ok resp => ⟨.delegated target resp, [(target, false)]⟩
  | .err msg =>
    match failover_agents.lookup target with
    | some ft =>
      if isConnectionFailure msg then
        match hs ft true with
        | .ok _ => ⟨.failoverOk target ft, [(target, false), (ft, true)]⟩
        | .err _ => ⟨.failed target msg, [(target, false), (ft, true)]⟩
      else ⟨.failed target msg, [(target, false)]⟩
    | none => ⟨.failed target msg, [(target, false)]⟩

/-- `delegate_to_agent` (the tool produced by `create_delegation_tool`). -/
def delegate_to_agent (source target : String)
    (ledger : List DelegationEntry) (now : Rat)
    (hs : String → Bool → HsBehavior) (request : String) :
    DelegationOutcome :=
  match extract_incident_id request with
  | some iid =>
    match check_delegation_exists ledger iid target now 300 with
    | some existing =>
      ⟨.alreadyHandled target existing.source_agent iid, []⟩
    | none => delegateProceed target hs
  | none => delegateProceed target hs

theorem matchLabelAt_ne_nil (l : List Char) (cap : List Char)
    (h : matchLabelAt l = some cap) : cap ≠ [] := by
  match l with
  | [] => exact Option.noConfusion h
  | c :: rest =>
    rw [matchLabelAt] at h
    split at h <;> try exact Option.noConfusion h
    split at h <;> try exact Option.noConfusion h
    split at h <;> try exact Option.noConfusion h
    split at h <;> try exact Option.noConfusion h
    split at h <;> try exact Option.noConfusion h
    split at h
    · exact Option.noConfusion h
    · rename_i hemp
      rw [Option.some_inj] at h
      subst h
      intro hnil
      rw [hnil] at hemp
      exact hemp rfl

theorem searchLabel_ne_nil (l : List Char) (cap : List Char)
    (h : searchLabel l = some cap) : cap ≠ [] := by
  induction l with
  | nil => simp [searchLabel] at h
  | cons c rest ih =>
    rw [searchLabel] at h
    split at h
    · rename_i cap0 hm
      rw [Option.some_inj] at h
      exact h ▸ matchLabelAt_ne_nil (c :: rest) cap0 hm
    · exact ih h

theorem capsRunOk_ne_nil (run : List Char) (h : capsRunOk run = true) :
    run ≠ [] := by
  intro hrun
  subst hrun
  simp [capsRunOk] at h

theorem searchCaps_ok (l : List Char) :
    ∀ (b : Bool) (run : List Char), searchCaps l b = some run →
      capsRunOk run = true := by
  induction l with
  | nil => intro b run h; exact Option.noConfusion h
  | cons c rest ih =>
    intro b run h
    rw [searchCaps] at h
    split at h
    · split at h
      · rename_i hok
        rw [Option.some_inj] at h
        exact h ▸ hok
      · exact ih _ run h
    · exact ih _ run h

theorem extract_incident_id_ne_empty (t : String) (iid : String)
    (h : extract_incident_id t = some iid) : iid ≠ "" := by
  rw [extract_incident_id] at h
  split at h
  · exact absurd h (by simp)
  · intro he
    have hdata := congrArg String.data he
    revert h
    split
    · rename_i cap hcap
      intro h
      rw [Option.some_inj] at h
      have : cap = [] := by
        rw [← h] at hdata
        simpa using hdata
      exact searchLabel_ne_nil _ cap hcap this
    · split
      · rename_i run hrun
        intro h
        rw [Option.some_inj] at h
        have : run = [] := by
          rw [← h] at hdata
          simpa using hdata
        exact capsRunOk_ne_nil run (searchCaps_ok _ true run hrun) this
      · intro h
        exact absurd h (by simp)

theorem selectLatest_mem :
    ∀ (l : List DelegationEntry) (x : DelegationEntry),
      selectLatest l = some x → x ∈ l := by
  intro l
  induction l with
  | nil => intro x h; simp [selectLatest] at h
  | cons e rest ih =>
    intro x h
    rw [selectLatest] at h
    split at h
    · rw [Option.some_inj] at h
      exact h ▸ List.mem_cons_self _ _
    · rename_i b hb
      split at h <;> rw [Option.some_inj] at h
      · exact List.mem_cons_of_mem _ (h ▸ ih b hb)
      · exact h ▸ List.mem_cons_self _ _

theorem selectLatest_cons (e : DelegationEntry)
    (rest : List DelegationEntry) :
    ∃ x, selectLatest (e :: rest) = some x := by
  rw [selectLatest]
  cases hr : selectLatest rest with
  | none => exact ⟨e, rfl⟩
  | some b =>
    by_cases h : b.created_at > e.created_at
    · exact ⟨b, by simp only [hr, if_pos h]⟩
    · exact ⟨e, by simp only [hr, if_neg h]⟩

/-- C1 — Delegation deduplication: if the request's extracted incident id
is `iid` and the ledger holds an entry `e` for `(iid, target)` — created
within the trailing 300 s window with status PENDING or COMPLETED by the
first delegation attempt — and `e` is the only such matching entry, then
the second `delegate_to_agent` call returns `already_handled` naming `e`'s
source agent and performs NO handshake/transport call. -/
theorem delegation_dedup (source target request iid : String)
    (ledger : List DelegationEntry) (now : Rat)
    (hs : String → Bool → HsBehavior) (e : DelegationEntry)
    (hx : extract_incident_id request = some iid)
    (hm : e ∈ ledger)
    (hmatch : matchesDedup e iid (normalizeName target) now 300 = true)
    (huniq : ∀ e' ∈ ledger,
      matchesDedup e' iid (normalizeName target) now 300 = true → e' = e) :
    delegate_to_agent source target ledger now hs request =
      ⟨.alreadyHandled target e.source_agent iid, []⟩ := by
  have hne : iid ≠ "" := extract_incident_id_ne_empty request iid hx
  have hmem : e ∈ ledger.filter
      (fun x => matchesDedup x iid (normalizeName target) now 300) :=
    List.mem_filter.mpr ⟨hm, hmatch⟩
  obtain ⟨x, hsel⟩ : ∃ x, selectLatest (ledger.filter
      (fun x => matchesDedup x iid (normalizeName target) now 300)) =
        some x := by
    cases hfil : ledger.filter
        (fun x => matchesDedup x iid (normalizeName target) now 300) with
    | nil => rw [hfil] at hmem; cases hmem
    | cons a l => exact selectLatest_cons a l
  have hxe : x = e := by
    have hxmem := selectLatest_mem _ x hsel
    have hsplit := List.mem_filter.mp hxmem
    exact huniq x hsplit.1 hsplit.2
  subst hxe
  have hcheck : check_delegation_exists ledger iid target now 300 =
      some x := by
    rw [check_delegation_exists, if_neg hne]
    exact hsel
  simp only [delegate_to_agent, hx, hcheck]

/-- Witness for C1: ledger with one PENDING entry by the camera agent for
`(FIRE_001, medical-agent)` created at t = 10; second attempt at t = 100
with the same labelled incident id. -/
theorem delegation_dedup_witness :
    (extract_incident_id "Incident ID: FIRE_001 send two ambulances" =
        some "FIRE_001" ∧
      (⟨"camera-agent", "medical-agent", some "FIRE_001", 10, .pending⟩ :
          DelegationEntry) ∈
        [(⟨"camera-agent", "medical-agent", some "FIRE_001", 10,
          .pending⟩ : DelegationEntry)] ∧
      matchesDedup
        ⟨"camera-agent", "medical-agent", some "FIRE_001", 10, .pending⟩
        "FIRE_001" (normalizeName "medical-agent") 100 300 = true) ∧
    delegate_to_agent "fire-chief-agent" "medical-agent"
      [⟨"camera-agent", "medical-agent", some "FIRE_001", 10, .pending⟩]
      100 (fun _ _ => .err "unused")
      "Incident ID: FIRE_001 send two ambulances" =
      ⟨.alreadyHandled "medical-agent" "camera-agent" "FIRE_001", []⟩ :=
  ⟨⟨rfl, by simp,
      by rw [show normalizeName "medical-agent" = "medical-agent" by rfl]
         simp [matchesDedup]
         norm_num⟩,
    delegation_dedup "fire-chief-agent" "medical-agent"
      "Incident ID: FIRE_001 send two ambulances" "FIRE_001"
      [⟨"camera-agent", "medical-agent", some "FIRE_001", 10, .pending⟩]
      100 (fun _ _ => .err "unused")
      ⟨"camera-agent", "medical-agent", some "FIRE_001", 10, .pending⟩
      rfl (by simp)
      (by rw [show normalizeName "medical-agent" = "medical-agent" by rfl]
          simp [matchesDedup]
          norm_num)
      (by intro e' he' _; simpa using he')⟩

/-- C6 counterexample: the static failover mapping CONTAINS a cycle —
`fire-chief-agent ↦ police-chief-agent` and
`police-chief-agent ↦ fire-chief-agent` — so the claim that the mapping
contains no cycles is false. -/
theorem failover_cycle_counterexample :
    failover_agents.lookup "fire-chief-agent" = some "police-chief-agent" ∧
    failover_agents.lookup "police-chief-agent" = some "fire-chief-agent" :=
  ⟨rfl, rfl⟩

/-- C6 (amended) — Failover discipline: the statically configured failover
mapping is fixed but contains a two-cycle (fire-chief-agent ↔
police-chief-agent); nevertheless, failover is attempted at most once per
delegation: every delegation performs at most two handshake calls — the
primary, plus at most one `is_failover` call to the statically mapped
backup — and when that single failover attempt also fails, the delegation
is recorded as failed with the original error and is never chained to the
backup's own failover target. -/
theorem failover_at_most_once (source target request : String)
    (ledger : List DelegationEntry) (now : Rat)
    (hs : String → Bool → HsBehavior) (msg msg2 ft : String)
    (hnone : extract_incident_id request = none)
    (hfail : hs target false = .err msg)
    (hconn : isConnectionFailure msg = true)
    (hft : failover_agents.lookup target = some ft)
    (hfail2 : hs ft true = .err msg2) :
    (∀ (src tgt req : String) (lg : List DelegationEntry) (n : Rat)
        (h2 : String → Bool → HsBehavior),
      (delegate_to_agent src tgt lg n h2 req).handshakeCalls = [] ∨
      (delegate_to_agent src tgt lg n h2 req).handshakeCalls =
        [(tgt, false)] ∨
      ∃ f, failover_agents.lookup tgt = some f ∧
        (delegate_to_agent src tgt lg n h2 req).handshakeCalls =
          [(tgt, false), (f, true)]) ∧
    delegate_to_agent source target ledger now hs request =
      ⟨.failed target msg, [(target, false), (ft, true)]⟩ := by
  have hshape : ∀ (tgt : String) (h2 : String → Bool → HsBehavior),
      (delegateProceed tgt h2).handshakeCalls = [(tgt, false)] ∨
      ∃ f, failover_agents.lookup tgt = some f ∧
        (delegateProceed tgt h2).handshakeCalls =
          [(tgt, false), (f, true)] := by
    intro tgt h2
    cases hb : h2 tgt false with
    | ok resp => left; simp [delegateProceed, hb]
    | err m =>
      cases hf : failover_agents.lookup tgt with
      | none => left; simp [delegateProceed, hb, hf]
      | some f =>
        by_cases hc : isConnectionFailure m = true
        · cases hb2 : h2 f true with
          | ok resp =>
            exact Or.inr ⟨f, rfl, by simp [delegateProceed, hb, hf, hc, hb2]⟩
          | err m2 =>
            exact Or.inr ⟨f, rfl, by simp [delegateProceed, hb, hf, hc, hb2]⟩
        · left; simp [delegateProceed, hb, hf, hc]
  constructor
  · intro src tgt req lg n h2
    cases hE : extract_incident_id req with
    | none =>
      have hred : delegate_to_agent src tgt lg n h2 req =
          delegateProceed tgt h2 := by
        simp [delegate_to_agent, hE]
      rw [hred]
      rcases hshape tgt h2 with h | h
      · exact Or.inr (Or.inl h)
      · exact Or.inr (Or.inr h)
    | some iid =>
      cases hC : check_delegation_exists lg iid tgt n 300 with
      | some ex =>
        have hred : delegate_to_agent src tgt lg n h2 req =
            ⟨.alreadyHandled tgt ex.source_agent iid, []⟩ := by
          simp [delegate_to_agent, hE, hC]
        rw [hred]
        exact Or.inl rfl
      | none =>
        have hred : delegate_to_agent src tgt lg n h2 req =
            delegateProceed tgt h2 := by
          simp [delegate_to_agent, hE, hC]
        rw [hred]
        rcases hshape tgt h2 with h | h
        · exact Or.inr (Or.inl h)
        · exact Or.inr (Or.inr h)
  · simp [delegate_to_agent, hnone, delegateProceed, hfail, hft, hconn,
      hfail2]

/-- Witness for C6 (amended): medical-agent unreachable with a connection
error; its backup police-chief-agent also unreachable; the delegation is
recorded failed after exactly the primary call and one failover call. -/
theorem failover_at_most_once_witness :
    (extract_incident_id "hello" = none ∧
      isConnectionFailure "connection refused" = true ∧
      failover_agents.lookup "medical-agent" = some "police-chief-agent") ∧
    ((∀ (src tgt req : String) (lg : List DelegationEntry) (n : Rat)
        (h2 : String → Bool → HsBehavior),
      (delegate_to_agent src tgt lg n h2 req).handshakeCalls = [] ∨
      (delegate_to_agent src tgt lg n h2 req).handshakeCalls =
        [(tgt, false)] ∨
      ∃ f, failover_agents.lookup tgt = some f ∧
        (delegate_to_agent src tgt lg n h2 req).handshakeCalls =
          [(tgt, false), (f, true)]) ∧
    delegate_to_agent "fire-chief-agent" "medical-agent" [] 0
      (fun _ _ => .err "connection refused") "hello" =
      ⟨.failed "medical-agent" "connection refused",
        [("medical-agent", false), ("police-chief-agent", true)]⟩) :=
  ⟨⟨rfl, rfl, rfl⟩,
    failover_at_most_once "fire-chief-agent" "medical-agent" "hello" [] 0
      (fun _ _ => .err "connection refused") "connection refused"
      "connection refused" "police-chief-agent" rfl rfl rfl rfl rfl⟩

end AgentMesh
